import Mathlib

/-!
# Verification of the Unifi CrossTalk activity-log core

A shallow embedding of the activity-log ingestion pipeline:
payload normalisation (`src/tools/activity_log/normalizers.py`),
the deduplicating store and webhook receivers (`src/activity_log/router.py`),
the cross-source correlator (the raw SQL in `get_correlations`), and the
notification rule matcher and deliverer (`src/activity_log/notifications.py`).

Conventions of the embedding:
* JSON payload values are the inductive `JVal`; Python truthiness, `dict.get`,
  `or`-chains, `str()` and `int()` are modelled explicitly.
* `datetime` instants are integers counting epoch milliseconds (UTC);
  `datetime.fromtimestamp(int(ts)/1000)` on an integral millisecond input is
  exactly the millisecond count, and `int(dt.timestamp())` is truncating
  division by 1000.
* Code that can raise a Python exception returns `Except PyErr`.
-/

namespace Crosstalk

/-- JSON-like Python values as delivered by `request.json()`.  Numbers are
modelled as integers (the fields the pipeline reads numerically are integral
epoch-millisecond timestamps). -/
inductive JVal where
  | null
  | bool (b : Bool)
  | num  (n : Int)
  | str  (s : String)
  | arr  (xs : List JVal)
  | obj  (kvs : List (String × JVal))

/-- Python exception kinds raised by the normaliser paths. -/
inductive PyErr where
  | attributeError
  | typeError
  | valueError
deriving DecidableEq

/-- Python truthiness of a JSON value (`if x:`). -/
def pyTruthy : JVal → Bool
  | .null => false
  | .bool b => b
  | .num n => n != 0
  | .str s => s != ""
  | .arr xs => !xs.isEmpty
  | .obj kvs => !kvs.isEmpty

/-- Python `a or b`: the first operand if truthy, otherwise the second. -/
def pyOr (a b : JVal) : JVal := if pyTruthy a then a else b

/-- `d.get(k)` on a dict: the value if present, else `None`. -/
def jGet (o : List (String × JVal)) (k : String) : JVal :=
  (o.lookup k).getD .null

/-- `d.get(k, default)` on a dict. -/
def jGetD (o : List (String × JVal)) (k : String) (d : JVal) : JVal :=
  (o.lookup k).getD d

/-- Attribute access `v.get(...)` demands a dict; anything else raises
`AttributeError` (e.g. `None.get`, `"x".get`, `[1].get`). -/
def asObj : JVal → Except PyErr (List (String × JVal))
  | .obj kvs => .ok kvs
  | _ => .error .attributeError

/-- Python `needle in haystack` prefix test over character lists. -/
def charsLead : List Char → List Char → Bool
  | [], _ => true
  | _ :: _, [] => false
  | a :: as, b :: bs => a == b && charsLead as bs

/-- Whether `n` occurs as a contiguous run inside the list. -/
def charsHave (n : List Char) : List Char → Bool
  | [] => n.isEmpty
  | c :: rest => charsLead n (c :: rest) || charsHave n rest

/-- `needle in hay` for Python strings: substring containment. -/
def strIn (needle hay : String) : Bool :=
  charsHave needle.toList hay.toList

/-- Python `s.strip()`: drop whitespace from both ends. -/
def strStrip (s : String) : String :=
  ⟨((s.toList.dropWhile Char.isWhitespace).reverse.dropWhile
      Char.isWhitespace).reverse⟩

/-- Python `s.replace(pat, rep)` over character lists (leftmost,
non-overlapping). -/
def replaceChars (pat rep : List Char) : List Char → List Char
  | [] => []
  | c :: cs =>
    if h : pat ≠ [] ∧ charsLead pat (c :: cs) = true then
      rep ++ replaceChars pat rep ((c :: cs).drop pat.length)
    else c :: replaceChars pat rep cs
termination_by l => l.length
decreasing_by
  · simp only [List.length_drop, List.length_cons]
    have : pat.length ≠ 0 := by
      intro h0
      exact h.1 (List.eq_nil_of_length_eq_zero h0)
    omega
  · simp

/-- Python `s.replace(pat, rep)` for strings. -/
def strReplace (s pat rep : String) : String :=
  ⟨replaceChars pat.toList rep.toList s.toList⟩

/-- Digits of a decimal numeral; `none` when empty or a non-digit occurs. -/
def digitsNat : List Char → Option Nat
  | [] => none
  | cs => cs.foldl (fun acc c =>
      match acc with
      | none => none
      | some n => if c.isDigit then some (n * 10 + (c.toNat - 48)) else none)
      (some 0)

/-- Python `int(s)` on a string: optional surrounding whitespace, optional
sign, then decimal digits; anything else raises `ValueError`. -/
def parseIntStr (s : String) : Option Int :=
  match (strStrip s).toList with
  | '-' :: rest => (digitsNat rest).map (fun n => -(n : Int))
  | '+' :: rest => (digitsNat rest).map (fun n => (n : Int))
  | cs => (digitsNat cs).map (fun n => (n : Int))

/-- Python `int(x)`: ints pass through, bools coerce, numeric strings parse
(`ValueError` otherwise), and any other type raises `TypeError`. -/
def pyIntOf : JVal → Except PyErr Int
  | .num n => .ok n
  | .bool b => .ok (if b then 1 else 0)
  | .str s =>
    match parseIntStr s with
    | some n => .ok n
    | none => .error .valueError
  | _ => .error .typeError

/-- Python `repr(v)` for JSON values (the rendering `str()` uses for values
nested inside lists and dicts). -/
def pyRepr : JVal → String
  | .null => "None"
  | .bool true => "True"
  | .bool false => "False"
  | .num n => toString n
  | .str s => "'" ++ s ++ "'"
  | .arr xs =>
    "[" ++ String.intercalate ", " (xs.attach.map (fun x => pyRepr x.1)) ++ "]"
  | .obj kvs =>
    "\x7b" ++
      String.intercalate ", "
        (kvs.attach.map (fun kv => "'" ++ kv.1.1 ++ "': " ++ pyRepr kv.1.2)) ++
      "\x7d"
decreasing_by
  · have := List.sizeOf_lt_of_mem x.2
    simp only [JVal.arr.sizeOf_spec]
    omega
  · have h1 := List.sizeOf_lt_of_mem kv.2
    have h2 : sizeOf kv.1.2 < sizeOf kv.1 := by
      obtain ⟨a, b⟩ := kv.1
      simp only [Prod.mk.sizeOf_spec]
      omega
    simp only [JVal.obj.sizeOf_spec]
    omega

/-- Python `str(v)`: strings print verbatim, everything else as `repr`
(container elements are rendered with `repr`, matching Python). -/
def pyStr : JVal → String
  | .str s => s
  | v => pyRepr v

/-! ## SHA-1 (`hashlib.sha1`)

`normalizers._dedup_id` hashes with `hashlib.sha1(raw.encode()).hexdigest()`.
The hash is reproduced here over `Nat` words reduced mod `2 ^ 32`. -/

/-- UTF-8 encoding of a character, as its list of bytes. -/
def utf8Char (c : Char) : List Nat :=
  let n := c.toNat
  if n < 0x80 then [n]
  else if n < 0x800 then
    [0xC0 + n / 64, 0x80 + n % 64]
  else if n < 0x10000 then
    [0xE0 + n / 4096, 0x80 + n / 64 % 64, 0x80 + n % 64]
  else
    [0xF0 + n / 262144, 0x80 + n / 4096 % 64, 0x80 + n / 64 % 64, 0x80 + n % 64]

/-- `s.encode()`: the UTF-8 bytes of a string. -/
def utf8Bytes (s : String) : List Nat :=
  s.toList.flatMap utf8Char

/-- Left rotation of a 32-bit word. -/
def rotl32 (s x : Nat) : Nat :=
  ((x <<< s) + (x >>> (32 - s))) % 4294967296

/-- SHA-1 round constant for round `i`. -/
def sha1K (i : Nat) : Nat :=
  if i < 20 then 0x5A827999
  else if i < 40 then 0x6ED9EBA1
  else if i < 60 then 0x8F1BBCDC
  else 0xCA62C1D6

/-- SHA-1 round function for round `i`. -/
def sha1F (i b c d : Nat) : Nat :=
  if i < 20 then (b &&& c) ||| ((b ^^^ 0xFFFFFFFF) &&& d)
  else if i < 40 then b ^^^ c ^^^ d
  else if i < 60 then (b &&& c) ||| (b &&& d) ||| (c &&& d)
  else b ^^^ c ^^^ d

/-- Group bytes into big-endian 32-bit words. -/
def bytesToWords : List Nat → List Nat
  | b0 :: b1 :: b2 :: b3 :: rest =>
    (((b0 * 256 + b1) * 256 + b2) * 256 + b3) :: bytesToWords rest
  | _ => []

/-- Extend the 16 scheduled words by `n` more (`w[i] = rotl1 (w[i-3] xor
w[i-8] xor w[i-14] xor w[i-16])`). -/
def sha1Expand (ws : List Nat) : Nat → List Nat
  | 0 => ws
  | n + 1 =>
    let prev := sha1Expand ws n
    let L := prev.length
    prev ++ [rotl32 1 (prev.getD (L - 3) 0 ^^^ prev.getD (L - 8) 0 ^^^
                       prev.getD (L - 14) 0 ^^^ prev.getD (L - 16) 0)]

/-- One SHA-1 compression round. -/
def sha1Step (st : Nat × Nat × Nat × Nat × Nat) (iw : Nat × Nat) :
    Nat × Nat × Nat × Nat × Nat :=
  let (a, b, c, d, e) := st
  let (i, w) := iw
  let t := (rotl32 5 a + sha1F i b c d + e + sha1K i + w) % 4294967296
  (t, a, rotl32 30 b, c, d)

/-- Process one padded 64-byte block into the running hash state. -/
def sha1Block (h : Nat × Nat × Nat × Nat × Nat) (block : List Nat) :
    Nat × Nat × Nat × Nat × Nat :=
  let ws := sha1Expand (bytesToWords block) 64
  let (a, b, c, d, e) := ((List.range 80).zip ws).foldl sha1Step h
  let (h0, h1, h2, h3, h4) := h
  ((h0 + a) % 4294967296, (h1 + b) % 4294967296, (h2 + c) % 4294967296,
   (h3 + d) % 4294967296, (h4 + e) % 4294967296)

/-- Big-endian byte rendering of `n`, `len` bytes wide. -/
def beBytes (len n : Nat) : List Nat :=
  (List.range len).map (fun i => (n >>> (8 * (len - 1 - i))) % 256)

/-- SHA-1 padding: append `0x80`, zero-fill to 56 mod 64, then the 64-bit
big-endian bit length. -/
def sha1Pad (msg : List Nat) : List Nat :=
  let L := msg.length
  msg ++ [0x80] ++ List.replicate ((120 - (L + 1) % 64) % 64) 0 ++
    beBytes 8 (L * 8)

/-- Split into 64-byte blocks. -/
def chunks64 : List Nat → List (List Nat)
  | [] => []
  | x :: rest => ((x :: rest).take 64) :: chunks64 ((x :: rest).drop 64)
termination_by l => l.length
decreasing_by simp; omega

/-- The 160-bit SHA-1 digest of a byte list, as a natural number. -/
def sha1Nat (msg : List Nat) : Nat :=
  let init : Nat × Nat × Nat × Nat × Nat :=
    (0x67452301, 0xEFCDAB89, 0x98BADCFE, 0x10325476, 0xC3D2E1F0)
  let (h0, h1, h2, h3, h4) := (chunks64 (sha1Pad msg)).foldl sha1Block init
  (((h0 * 4294967296 + h1) * 4294967296 + h2) * 4294967296 + h3) *
    4294967296 + h4

/-- A lowercase hexadecimal digit. -/
def hexChar (n : Nat) : Char :=
  Char.ofNat (if n < 10 then 48 + n else 87 + n)

/-- `len` lowercase hex digits of `n`, most significant first. -/
def natToHex (len n : Nat) : List Char :=
  (List.range len).map (fun i => hexChar ((n >>> (4 * (len - 1 - i))) % 16))

/-- `hashlib.sha1(s.encode()).hexdigest()`: 40 lowercase hex characters. -/
def sha1Hex (s : String) : String :=
  ⟨natToHex 40 (sha1Nat (utf8Bytes s))⟩

/-- `_dedup_id(prefix, *parts)`: drop falsy parts, render the rest with
`str`, join with `-` after `prefix + "-"`, and keep the first 24 hex digits
of the SHA-1. -/
def dedup_id (pre : String) (parts : List JVal) : String :=
  let raw := pre ++ "-" ++
    String.intercalate "-" ((parts.filter pyTruthy).map pyStr)
  ⟨(sha1Hex raw).toList.take 24⟩

/-! ## Normalizers (`src/tools/activity_log/normalizers.py`) -/

/-- `_ts_to_dt(ts)`: `datetime.fromtimestamp(int(ts)/1000, tz=utc)` with a
catch-all fallback to `datetime.now(utc)`.  In the epoch-millisecond model
the parsed value itself is the instant; note that an ISO-8601 string makes
`int(ts)` raise, so it lands in the fallback. -/
def ts_to_dt (ts : JVal) (now : Int) : Int :=
  match pyIntOf ts with
  | .ok n => n
  | .error _ => now

/-- `ACCESS_ACTION_MAP`. -/
def ACCESS_ACTION_MAP : List (String × String) :=
  [("access.logs.add", "access_granted"),
   ("access.logs.denied", "access_denied"),
   ("access.door.unlock", "door_unlocked"),
   ("access.door.open", "door_opened"),
   ("access.door.close", "door_closed"),
   ("access.door.held_open", "door_held_open"),
   ("access.remote_view.change", "remote_view_change")]

/-- `PROTECT_ACTION_MAP`. -/
def PROTECT_ACTION_MAP : List (String × String) :=
  [("ring", "doorbell_ring"),
   ("motion", "motion_detected"),
   ("smartDetectZone", "smart_detect"),
   ("smartDetectLine", "smart_detect"),
   ("recording", "recording_event"),
   ("camera", "camera_event")]

/-- The normalized event dict both normalizers return: the ten keys of the
returned literal, with `source`/`event_type` the fixed strings, `event_id`
already passed through `str()`, and `occurred_at` a UTC instant. -/
structure NormEvent where
  event_id : String
  source : String
  event_type : String
  raw_event_type : JVal
  user_id : JVal
  user_name : JVal
  location : JVal
  action : JVal
  metadata_json : JVal
  occurred_at : Int

/-- `PROTECT_ACTION_MAP.get(event_type, event_type)`: string keys look up
(defaulting to the key itself); other hashable values miss and return the
default; unhashable lists and dicts raise `TypeError`. -/
def protectMapGet (k : JVal) : Except PyErr JVal :=
  match k with
  | .str s => .ok (.str ((PROTECT_ACTION_MAP.lookup s).getD s))
  | .arr _ => .error .typeError
  | .obj _ => .error .typeError
  | v => .ok v

/-- Collect a list of string values, failing with `TypeError` on any
non-string element. -/
def strList : List JVal → Except PyErr (List String)
  | [] => .ok []
  | .str s :: rest => (strList rest).map (fun r => s :: r)
  | _ :: _ => .error .typeError

/-- `','.join(xs)`: joins an iterable of strings; iterating a string yields
its characters and iterating a dict yields its keys; non-string elements or
non-iterable arguments raise `TypeError`. -/
def joinComma : JVal → Except PyErr String
  | .arr xs => (strList xs).map (String.intercalate ",")
  | .str s => .ok (String.intercalate "," (s.toList.map (fun c => String.mk [c])))
  | .obj kvs => .ok (String.intercalate "," (kvs.map (·.1)))
  | _ => .error .typeError

/-- `normalize_access(payload)` over the dict's entries; `now` is the
ingestion instant `datetime.now(utc)`.  Statements run in source order, and
steps that can raise surface through `Except` (the first `data.get` /
`actor.get` / `door.get` on a non-dict raises `AttributeError`, as does
`event_type.replace` on a non-string when building the action slug). -/
def normalize_access (payload : List (String × JVal)) (now : Int) :
    Except PyErr NormEvent := do
  let event_type := pyOr (pyOr (jGet payload "event") (jGet payload "type"))
    (.str "unknown")
  let data ← asObj (jGetD payload "data" (.obj payload))
  let ts := pyOr (jGet data "timestamp") (jGet payload "timestamp")
  let occurred_at := if pyTruthy ts then ts_to_dt ts now else now
  let actor ← asObj (jGetD data "actor" (.obj []))
  let user_id := pyOr (pyOr (jGet actor "id") (jGet data "actor_id"))
    (jGet data "user_id")
  let first := jGetD actor "first_name" (.str "")
  let last := jGetD actor "last_name" (.str "")
  let fullName := strStrip (pyStr first ++ " " ++ pyStr last)
  let user_name := pyOr (jGet actor "display_name")
    (pyOr (.str fullName) .null)
  let door ← asObj (jGetD data "door" (.obj []))
  let location := pyOr (pyOr (jGet door "name") (jGet data "door_name"))
    (jGet data "location")
  let action ← (match event_type with
    | .str s =>
      Except.ok ((ACCESS_ACTION_MAP.lookup s).getD (strReplace s "." "_"))
    | _ => Except.error PyErr.attributeError : Except PyErr String)
  let event_id := pyOr (jGet data "id")
    (.str (dedup_id "acc" [user_id, event_type, .num (occurred_at.tdiv 1000)]))
  return { event_id := pyStr event_id,
           source := "access",
           event_type := "physical_access",
           raw_event_type := event_type,
           user_id := user_id,
           user_name := user_name,
           location := location,
           action := .str action,
           metadata_json := .obj payload,
           occurred_at := occurred_at }

/-- `normalize_protect(payload)`; same conventions as `normalize_access`. -/
def normalize_protect (payload : List (String × JVal)) (now : Int) :
    Except PyErr NormEvent := do
  let event_type := pyOr (pyOr (jGet payload "type") (jGet payload "event"))
    (.str "unknown")
  let data ← asObj (jGetD payload "data" (.obj payload))
  let ts := pyOr (pyOr (jGet data "start") (jGet data "timestamp"))
    (jGet payload "timestamp")
  let occurred_at := if pyTruthy ts then ts_to_dt ts now else now
  let camera_id := pyOr (jGet data "camera") (jGet data "cameraId")
  let camera_name := pyOr (pyOr (jGet data "cameraName")
    (jGet data "camera_name")) camera_id
  let smart_types := jGetD data "smartDetectTypes" (.arr [])
  let base ← protectMapGet event_type
  let action ← if pyTruthy smart_types then
      (joinComma smart_types).map (fun j => JVal.str ("smart_detect:" ++ j))
    else .ok base
  let event_id := pyOr (jGet data "id")
    (.str (dedup_id "prot"
      [camera_id, event_type, .num (occurred_at.tdiv 1000)]))
  return { event_id := pyStr event_id,
           source := "protect",
           event_type := "video_event",
           raw_event_type := event_type,
           user_id := camera_id,
           user_name := camera_name,
           location := pyOr camera_name (jGet data "zone"),
           action := action,
           metadata_json := .obj payload,
           occurred_at := occurred_at }

/-! ## Event store and webhook receiver (`src/activity_log/router.py`) -/

/-- `_store_event`: select by `event_id`; if a row exists, return without
touching the store (dedup); otherwise add the new row.  The outbound
notification it may then send does not change the store. -/
def store_event (e : NormEvent) (db : List NormEvent) : List NormEvent :=
  if db.any (fun x => x.event_id == e.event_id) then db
  else db ++ [e]

/-- The `for raw in events` loop of `webhook_access`: each item is
normalized (`raw.get` on a non-dict item, or a normalizer error, raises out
of the endpoint), the result — always a truthy dict — is stored, and
`stored` is incremented on every loop iteration. -/
def accessLoop (now : Int) :
    List JVal → List NormEvent → Nat → Except PyErr (List NormEvent × Nat)
  | [], db, stored => .ok (db, stored)
  | raw :: rest, db, stored => do
    let o ← asObj raw
    let ev ← normalize_access o now
    accessLoop now rest (store_event ev db) (stored + 1)

/-- `webhook_access` on an already-decoded JSON array body: returns the new
store plus the `{received, stored}` counts of the response. -/
def webhook_access (items : List JVal) (db : List NormEvent) (now : Int) :
    Except PyErr (List NormEvent × Nat × Nat) :=
  (accessLoop now items db 0).map (fun r => (r.1, items.length, r.2))

/-! ## Cross-source correlator (`get_correlations` raw SQL)

The query reads the `activity_events` rows.  On SQLite the `occurred_at`
column is stored as the text `YYYY-MM-DD HH:MM:SS.ffffff` — the SQLAlchemy
SQLite `DATETIME` bind always renders the six-digit microsecond suffix —
and the SQL comparisons are plain text comparisons on that zero-padded
format, which order exactly like the instants themselves.  `occurred_at`
is therefore modelled as epoch *microseconds*; its calendar second, the
19-character prefix of the text, is `occurred_at / 1000000` (floor).

The upper `BETWEEN` bound is `datetime(e1.occurred_at, '+w seconds')`,
which SQLite renders *without* a fractional part.  Comparing a stored
26-character value against that 19-character bound, every value in the
bound's own second extends the bound with `.ffffff` and so sorts strictly
after it: the text condition `e2.occurred_at <= datetime(e1, '+w seconds')`
holds iff `sec(e2) < sec(e1) + w`.  In particular the boundary second is
excluded, and at `w = 0` the range below the anchor's own time is empty.
The lower bound compares two 26-character values, so it is the exact
inclusive comparison of the instants. -/

/-- The event fields the rule matcher and deliverer read. -/
structure NotifEvent where
  source : String
  action : String
deriving DecidableEq

/-- The `activity_webhook_config` row (`ActivityWebhookConfig`). -/
structure ActivityWebhookConfig where
  enabled : Bool
  webhook_url : String
  webhook_type : String
  event_access_granted : Bool
  event_access_denied : Bool
  event_door_held_open : Bool
  event_person_detected : Bool
  event_vehicle_detected : Bool
  event_doorbell_ring : Bool
  event_motion : Bool
deriving DecidableEq

/-- `_should_notify(event, config)`: the early `return False` guard followed
by the chain of `if ...: return True` branches (a disjunction). -/
def should_notify (e : NotifEvent) (c : ActivityWebhookConfig) : Bool :=
  if !c.enabled || c.webhook_url == "" then false
  else
    (e.source == "access" && e.action == "access_granted" &&
      c.event_access_granted) ||
    (e.source == "access" && e.action == "access_denied" &&
      c.event_access_denied) ||
    (e.source == "access" && e.action == "door_held_open" &&
      c.event_door_held_open) ||
    (e.source == "protect" && e.action == "doorbell_ring" &&
      c.event_doorbell_ring) ||
    (e.source == "protect" && e.action == "motion_detected" &&
      c.event_motion) ||
    (e.source == "protect" && strIn "person" e.action &&
      c.event_person_detected) ||
    (e.source == "protect" && strIn "vehicle" e.action &&
      c.event_vehicle_detected)

/-- The seven boolean switches of the config row. -/
inductive SwitchId where
  | accessGranted
  | accessDenied
  | doorHeldOpen
  | doorbellRing
  | motionDetected
  | personDetected
  | vehicleDetected
deriving DecidableEq

/-- Enumeration of the switches. -/
def allSwitches : List SwitchId :=
  [.accessGranted, .accessDenied, .doorHeldOpen, .doorbellRing,
   .motionDetected, .personDetected, .vehicleDetected]

/-- The (source, action-class) condition registered for a switch, exactly as
the matcher tests it: equality on the plain action slugs, containment on the
`person` / `vehicle` sub-tags. -/
def swMatches : SwitchId → NotifEvent → Bool
  | .accessGranted, e => e.source == "access" && e.action == "access_granted"
  | .accessDenied, e => e.source == "access" && e.action == "access_denied"
  | .doorHeldOpen, e => e.source == "access" && e.action == "door_held_open"
  | .doorbellRing, e => e.source == "protect" && e.action == "doorbell_ring"
  | .motionDetected, e => e.source == "protect" && e.action == "motion_detected"
  | .personDetected, e => e.source == "protect" && strIn "person" e.action
  | .vehicleDetected, e => e.source == "protect" && strIn "vehicle" e.action

/-- Read one switch from the config row. -/
def swGet (c : ActivityWebhookConfig) : SwitchId → Bool
  | .accessGranted => c.event_access_granted
  | .accessDenied => c.event_access_denied
  | .doorHeldOpen => c.event_door_held_open
  | .doorbellRing => c.event_doorbell_ring
  | .motionDetected => c.event_motion
  | .personDetected => c.event_person_detected
  | .vehicleDetected => c.event_vehicle_detected

/-- Flip one switch of the config row, leaving every other field alone. -/
def flipSw (s : SwitchId) (c : ActivityWebhookConfig) :
    ActivityWebhookConfig :=
  match s with
  | .accessGranted => { c with event_access_granted := !c.event_access_granted }
  | .accessDenied => { c with event_access_denied := !c.event_access_denied }
  | .doorHeldOpen => { c with event_door_held_open := !c.event_door_held_open }
  | .doorbellRing => { c with event_doorbell_ring := !c.event_doorbell_ring }
  | .motionDetected => { c with event_motion := !c.event_motion }
  | .personDetected => { c with event_person_detected := !c.event_person_detected }
  | .vehicleDetected => { c with event_vehicle_detected := !c.event_vehicle_detected }

/-- Modelled from the spec (§4.4): the matcher "fires iff policy.enabled,
policy has a destination configured, and the boolean switch registered for
this event's (source, action-class) is true", with containment matching for
sub-tagged classes. -/
def shouldNotifySpec (e : NotifEvent) (c : ActivityWebhookConfig) : Bool :=
  c.enabled && !(c.webhook_url == "") &&
    allSwitches.any (fun s => swMatches s e && swGet c s)

/-- The outcome of the single outbound `session.post`: an HTTP status, or a
raised exception (timeout, transport failure) — both are caught by the
`try`/`except` around the call. -/
inductive HttpResult where
  | ok (status : Nat)
  | exn
deriving DecidableEq

/-- `send_notification(event, config)`: the deliverer.  `http n` is the
outcome the network would give the `n`-th outbound call of this invocation;
the returned pair is the boolean result together with how many outbound
calls were actually made.  A status `< 300` is success; any other status,
or a raised timeout / transport error, is caught and returns `False`. -/
def send_notification (e : NotifEvent) (c : ActivityWebhookConfig)
    (http : Nat → HttpResult) : Bool × Nat :=
  if !(should_notify e c) then (false, 0)
  else
    match http 0 with
    | .ok s => (decide (s < 300), 1)
    | .exn => (false, 1)

/-! ## Derived shapes and well-formedness -/

/-- Whether an `Except` carries a value. -/
def exOk {α : Type} : Except PyErr α → Bool
  | .ok _ => true
  | .error _ => false

/-- The record `normalize_access` returns, spelled out in terms of the
resolved `data` / `actor` / `door` dicts and the event-type string. -/
def accessRecord (o data actor door : List (String × JVal)) (s : String)
    (now : Int) : NormEvent :=
  let ts := pyOr (jGet data "timestamp") (jGet o "timestamp")
  let occurred_at := if pyTruthy ts then ts_to_dt ts now else now
  let user_id := pyOr (pyOr (jGet actor "id") (jGet data "actor_id"))
    (jGet data "user_id")
  let fullName := strStrip (pyStr (jGetD actor "first_name" (.str "")) ++
    " " ++ pyStr (jGetD actor "last_name" (.str "")))
  let user_name := pyOr (jGet actor "display_name")
    (pyOr (.str fullName) .null)
  let location := pyOr (pyOr (jGet door "name") (jGet data "door_name"))
    (jGet data "location")
  let event_id := pyOr (jGet data "id")
    (.str (dedup_id "acc" [user_id, .str s, .num (occurred_at.tdiv 1000)]))
  { event_id := pyStr event_id,
    source := "access",
    event_type := "physical_access",
    raw_event_type := .str s,
    user_id := user_id,
    user_name := user_name,
    location := location,
    action := .str ((ACCESS_ACTION_MAP.lookup s).getD (strReplace s "." "_")),
    metadata_json := .obj o,
    occurred_at := occurred_at }

/-- The record `normalize_protect` returns, given the resolved `data` dict
and the action value the smart-detect refinement produced. -/
def protectCore (o data : List (String × JVal)) (action : JVal)
    (now : Int) : NormEvent :=
  let ety := pyOr (pyOr (jGet o "type") (jGet o "event")) (.str "unknown")
  let ts := pyOr (pyOr (jGet data "start") (jGet data "timestamp"))
    (jGet o "timestamp")
  let occurred_at := if pyTruthy ts then ts_to_dt ts now else now
  let camera_id := pyOr (jGet data "camera") (jGet data "cameraId")
  let camera_name := pyOr (pyOr (jGet data "cameraName")
    (jGet data "camera_name")) camera_id
  let event_id := pyOr (jGet data "id")
    (.str (dedup_id "prot" [camera_id, ety, .num (occurred_at.tdiv 1000)]))
  { event_id := pyStr event_id,
    source := "protect",
    event_type := "video_event",
    raw_event_type := ety,
    user_id := camera_id,
    user_name := camera_name,
    location := pyOr camera_name (jGet data "zone"),
    action := action,
    metadata_json := .obj o,
    occurred_at := occurred_at }

/-- A payload whose fields hold the types `normalize_access` dereferences
without guarding: the resolved event type is a string, and the resolved
`data`, `actor` and `door` values are dicts. -/
def wfAccessPayload (o : List (String × JVal)) : Bool :=
  (match pyOr (pyOr (jGet o "event") (jGet o "type")) (.str "unknown") with
   | .str _ => true
   | _ => false) &&
  (match asObj (jGetD o "data" (.obj o)) with
   | .error _ => false
   | .ok data =>
     exOk (asObj (jGetD data "actor" (.obj []))) &&
     exOk (asObj (jGetD data "door" (.obj []))))

/-- A payload whose fields hold the types `normalize_protect` dereferences
without guarding: `data` is a dict, the event type is hashable, and a truthy
`smartDetectTypes` is `','.join`-able. -/
def wfProtectPayload (o : List (String × JVal)) : Bool :=
  match asObj (jGetD o "data" (.obj o)) with
  | .error _ => false
  | .ok data =>
    exOk (protectMapGet (pyOr (pyOr (jGet o "type") (jGet o "event"))
      (.str "unknown"))) &&
    (!pyTruthy (jGetD data "smartDetectTypes" (.arr [])) ||
      exOk (joinComma (jGetD data "smartDetectTypes" (.arr []))))

/-- Lowercase hexadecimal digit test. -/
def isHexLower (c : Char) : Bool :=
  "0123456789abcdef".toList.contains c

/-- The batch `webhook_access` receives twice in the duplicate-resend
scenario: one item with a source-provided id and an explicit timestamp. -/
def c3Payload : List (String × JVal) :=
  [("type", .str "access.logs.add"),
   ("data", .obj [("id", .str "evt-1")]),
   ("timestamp", .num 1700000000000)]

/-- The stored record the first delivery of `c3Payload` produces. -/
def c3Event : NormEvent :=
  { event_id := "evt-1",
    source := "access",
    event_type := "physical_access",
    raw_event_type := .str "access.logs.add",
    user_id := .null,
    user_name := .null,
    location := .null,
    action := .str "access_granted",
    metadata_json := .obj c3Payload,
    occurred_at := 1700000000000 }

/-- An access payload carrying an ISO-8601 timestamp. -/
def c4Payload : List (String × JVal) :=
  [("type", .str "access.logs.add"),
   ("timestamp", .str "2025-01-01T00:00:00Z")]

/-- Payload with no actor id anywhere (the resolved actor id is `None`). -/
def c10P1 : List (String × JVal) :=
  [("type", .str "access.logs.add"),
   ("timestamp", .num 1700000000000),
   ("data", .obj [("actor", .obj [("id", JVal.null)])])]

/-- The same payload with the actor id replaced by an empty string. -/
def c10P2 : List (String × JVal) :=
  [("type", .str "access.logs.add"),
   ("timestamp", .num 1700000000000),
   ("data", .obj [("actor", .obj [("id", JVal.str "")]),
                  ("user_id", JVal.str "")])]

/-! ## Helper lemmas -/

theorem normalize_access_shape
    (o data actor door : List (String × JVal)) (s : String) (now : Int)
    (het : pyOr (pyOr (jGet o "event") (jGet o "type")) (.str "unknown") =
      .str s)
    (hd : asObj (jGetD o "data" (.obj o)) = .ok data)
    (ha : asObj (jGetD data "actor" (.obj [])) = .ok actor)
    (hdo : asObj (jGetD data "door" (.obj [])) = .ok door) :
    normalize_access o now = .ok (accessRecord o data actor door s now) := by
  unfold normalize_access
  simp only [het, hd, ha, hdo, Except.bind, bind]
  rfl

theorem normalize_access_ok_inv (o : List (String × JVal)) (now : Int)
    (e : NormEvent) (h : normalize_access o now = .ok e) :
    ∃ data actor door s,
      pyOr (pyOr (jGet o "event") (jGet o "type")) (.str "unknown") =
        .str s ∧
      asObj (jGetD o "data" (.obj o)) = .ok data ∧
      asObj (jGetD data "actor" (.obj [])) = .ok actor ∧
      asObj (jGetD data "door" (.obj [])) = .ok door := by
  unfold normalize_access at h
  cases hd : asObj (jGetD o "data" (.obj o)) with
  | error err => rw [hd] at h; simp [Except.bind, bind] at h
  | ok data =>
    rw [hd] at h
    simp only [Except.bind, bind] at h
    cases ha : asObj (jGetD data "actor" (.obj [])) with
    | error err => rw [ha] at h; simp [Except.bind] at h
    | ok actor =>
      rw [ha] at h
      simp only [Except.bind] at h
      cases hdo : asObj (jGetD data "door" (.obj [])) with
      | error err => rw [hdo] at h; simp [Except.bind] at h
      | ok door =>
        rw [hdo] at h
        simp only [Except.bind] at h
        cases het : pyOr (pyOr (jGet o "event") (jGet o "type"))
            (.str "unknown") with
        | str s => exact ⟨data, actor, door, s, rfl, rfl, ha, hdo⟩
        | null => rw [het] at h; simp [Except.bind] at h
        | bool b => rw [het] at h; simp [Except.bind] at h
        | num n => rw [het] at h; simp [Except.bind] at h
        | arr xs => rw [het] at h; simp [Except.bind] at h
        | obj kvs => rw [het] at h; simp [Except.bind] at h

theorem normalize_protect_shape_nosmart
    (o data : List (String × JVal)) (base : JVal) (now : Int)
    (hd : asObj (jGetD o "data" (.obj o)) = .ok data)
    (hb : protectMapGet (pyOr (pyOr (jGet o "type") (jGet o "event"))
      (.str "unknown")) = .ok base)
    (hs : pyTruthy (jGetD data "smartDetectTypes" (.arr [])) = false) :
    normalize_protect o now = .ok (protectCore o data base now) := by
  unfold normalize_protect
  simp only [hd, hb, hs, Except.bind, bind]
  rfl

theorem normalize_protect_shape_smart
    (o data : List (String × JVal)) (base : JVal) (j : String) (now : Int)
    (hd : asObj (jGetD o "data" (.obj o)) = .ok data)
    (hb : protectMapGet (pyOr (pyOr (jGet o "type") (jGet o "event"))
      (.str "unknown")) = .ok base)
    (hs : pyTruthy (jGetD data "smartDetectTypes" (.arr [])) = true)
    (hj : joinComma (jGetD data "smartDetectTypes" (.arr [])) = .ok j) :
    normalize_protect o now =
      .ok (protectCore o data (.str ("smart_detect:" ++ j)) now) := by
  unfold normalize_protect
  simp only [hd, hb, hs, hj, Except.bind, bind, Except.map, if_true]
  rfl

theorem store_event_of_dup (e : NormEvent) (db : List NormEvent)
    (h : db.any (fun x => x.event_id == e.event_id) = true) :
    store_event e db = db := by
  simp [store_event, h]

theorem store_event_of_new (e : NormEvent) (db : List NormEvent)
    (h : db.any (fun x => x.event_id == e.event_id) = false) :
    store_event e db = db ++ [e] := by
  simp [store_event, h]

/-! ## Claims -/

/-- **C1** — Storing is idempotent on the dedup key: inserting an event whose
`event_id` is already present leaves the store unchanged (a successful
no-op); re-inserting any event is a no-op; and normalizing a payload and
storing the result twice leaves exactly one stored record carrying that
`event_id`, the second insert changing no stored record. -/
theorem storing_is_idempotent :
    (∀ (e : NormEvent) (db : List NormEvent),
        (∃ x ∈ db, x.event_id = e.event_id) → store_event e db = db)
    ∧ (∀ (e : NormEvent) (db : List NormEvent),
        store_event e (store_event e db) = store_event e db)
    ∧ (∀ (o : List (String × JVal)) (now : Int) (e : NormEvent)
        (db : List NormEvent), normalize_access o now = .ok e →
        (∀ x ∈ db, x.event_id ≠ e.event_id) →
        ((store_event e (store_event e db)).filter
            (fun x => x.event_id == e.event_id)).length = 1) := by
  have hnew_any : ∀ (e : NormEvent) (db : List NormEvent),
      (∀ x ∈ db, x.event_id ≠ e.event_id) →
      db.any (fun x => x.event_id == e.event_id) = false := by
    intro e db hnew
    rw [List.any_eq_false]
    intro x hx
    simpa using hnew x hx
  refine ⟨?_, ?_, ?_⟩
  · intro e db ⟨x, hx, hid⟩
    exact store_event_of_dup e db (List.any_eq_true.mpr ⟨x, hx, by simp [hid]⟩)
  · intro e db
    by_cases h : db.any (fun x => x.event_id == e.event_id) = true
    · rw [store_event_of_dup e db h, store_event_of_dup e db h]
    · have h' := Bool.eq_false_iff.mpr h
      rw [store_event_of_new e db h']
      exact store_event_of_dup e _ (by simp [List.any_append])
  · intro o now e db _ hnew
    rw [store_event_of_new e db (hnew_any e db hnew),
        store_event_of_dup e _ (by simp [List.any_append]),
        List.filter_append]
    have hdbf : db.filter (fun x => x.event_id == e.event_id) = [] := by
      rw [List.filter_eq_nil_iff]
      intro x hx
      simpa using hnew x hx
    simp [hdbf]

/-- Concrete payload for the C1 witness. -/
def c1Payload : List (String × JVal) :=
  [("type", .str "access.logs.add"), ("data", .obj [("id", .str "w1")])]

/-- The record `c1Payload` normalizes to at ingestion time 0. -/
def c1Event : NormEvent :=
  { event_id := "w1", source := "access", event_type := "physical_access",
    raw_event_type := .str "access.logs.add", user_id := .null,
    user_name := .null, location := .null, action := .str "access_granted",
    metadata_json := .obj c1Payload, occurred_at := 0 }

/-- Witness for C1 at a concrete payload and the empty store. -/
theorem storing_is_idempotent_witness :
    normalize_access c1Payload 0 = .ok c1Event ∧
    ((store_event c1Event (store_event c1Event [])).filter
        (fun x => x.event_id == c1Event.event_id)).length = 1 :=
  ⟨by rfl, storing_is_idempotent.2.2 c1Payload 0 c1Event [] (by rfl) (by simp)⟩

/-- **C3** — The code counts a duplicate in `stored`: delivering `c3Payload`
to an empty store persists one record and reports `received = 1, stored = 1`,
but re-delivering the identical payload leaves the store unchanged (the
duplicate insert is a no-op) while the response still reports `stored = 1`,
not the `stored = 0` the specification requires for a resend. -/
theorem resend_still_counts_stored :
    webhook_access [.obj c3Payload] [] 0 = .ok ([c3Event], 1, 1) ∧
    webhook_access [.obj c3Payload] [c3Event] 5 = .ok ([c3Event], 1, 1) :=
  ⟨by rfl, by rfl⟩

/-- **C4** — An ISO-8601 timestamp string is not mapped to its UTC instant:
`normalize_access` on a payload whose timestamp is `2025-01-01T00:00:00Z`
(epoch 1735689600000 ms) yields `occurred_at` equal to the ingestion time
(42 here), because `_ts_to_dt` applies `int()` to the string and falls into
the catch-all fallback; `_iso_to_dt` is never invoked. -/
theorem iso_timestamp_falls_back_to_now :
    (normalize_access c4Payload 42).map NormEvent.occurred_at = .ok 42 ∧
    (42 : Int) ≠ 1735689600000 :=
  ⟨by rfl, by decide⟩

/-- **C7 counterexample** — A syntactically valid JSON object whose event
type holds a number makes `normalize_access` raise `AttributeError`
(`event_type.replace` on an `int`) instead of returning an event or an
explicit rejection. -/
theorem normalize_access_raises_on_numeric_type :
    normalize_access [("event", JVal.num 5)] 0 = .error .attributeError :=
  by rfl

/-- **C8 counterexample** — The protect normalizer does not normalize
separators in unmapped vendor types: `{"type": "foo.bar"}` produces the
action `"foo.bar"` verbatim, not `"foo_bar"`. -/
theorem protect_unmapped_keeps_dots :
    (normalize_protect [("type", JVal.str "foo.bar")] 3).map
      NormEvent.action = .ok (.str "foo.bar") ∧
    "foo.bar" ≠ "foo_bar" :=
  ⟨by rfl, by decide⟩

/-- **C7 amended** — Totality holds on well-typed payloads: whenever the
resolved event type is a string and the resolved nested objects are dicts
(and, for protect, a truthy `smartDetectTypes` is joinable), each normalizer
returns a fully populated canonical event and no exception; on other
syntactically valid objects it can raise (see the counterexample). -/
theorem normalizers_total_on_wf :
    (∀ (o : List (String × JVal)) (now : Int), wfAccessPayload o = true →
        ∃ e, normalize_access o now = .ok e)
    ∧ (∀ (o : List (String × JVal)) (now : Int), wfProtectPayload o = true →
        ∃ e, normalize_protect o now = .ok e) := by
  constructor
  · intro o now h
    unfold wfAccessPayload at h
    obtain ⟨h1, h2⟩ := (Bool.and_eq_true _ _).mp h
    cases het : pyOr (pyOr (jGet o "event") (jGet o "type")) (.str "unknown") <;>
      rw [het] at h1 <;> simp at h1
    case str s =>
    cases hd : asObj (jGetD o "data" (.obj o)) <;> rw [hd] at h2 <;> simp at h2
    case ok data =>
    obtain ⟨h2a, h2b⟩ := h2
    cases ha : asObj (jGetD data "actor" (.obj [])) <;>
      rw [ha] at h2a <;> simp [exOk] at h2a
    case ok actor =>
    cases hdo : asObj (jGetD data "door" (.obj [])) <;>
      rw [hdo] at h2b <;> simp [exOk] at h2b
    case ok door =>
    exact ⟨_, normalize_access_shape o data actor door s now het hd ha hdo⟩
  · intro o now h
    unfold wfProtectPayload at h
    cases hd : asObj (jGetD o "data" (.obj o)) <;> rw [hd] at h <;> simp at h
    case ok data =>
    obtain ⟨h1, h2⟩ := h
    cases hb : protectMapGet (pyOr (pyOr (jGet o "type") (jGet o "event"))
        (.str "unknown")) <;> rw [hb] at h1 <;> simp [exOk] at h1
    case ok base =>
    cases hsm : pyTruthy (jGetD data "smartDetectTypes" (.arr [])) with
    | false => exact ⟨_, normalize_protect_shape_nosmart o data base now hd hb hsm⟩
    | true =>
      rw [hsm] at h2
      simp at h2
      cases hj : joinComma (jGetD data "smartDetectTypes" (.arr [])) <;>
        rw [hj] at h2 <;> simp [exOk] at h2
      case ok j =>
      exact ⟨_, normalize_protect_shape_smart o data base j now hd hb hsm hj⟩

/-- Witness for C7-amended at concrete well-typed payloads. -/
theorem normalizers_total_on_wf_witness :
    (wfAccessPayload [("type", JVal.str "t1")] = true ∧
      ∃ e, normalize_access [("type", JVal.str "t1")] 0 = .ok e) ∧
    (wfProtectPayload [("type", JVal.str "smartDetectZone"),
        ("smartDetectTypes", JVal.arr [JVal.str "person"])] = true ∧
      ∃ e, normalize_protect [("type", JVal.str "smartDetectZone"),
        ("smartDetectTypes", JVal.arr [JVal.str "person"])] 0 = .ok e) :=
  ⟨⟨by rfl, normalizers_total_on_wf.1 _ 0 (by rfl)⟩,
   ⟨by rfl, normalizers_total_on_wf.2 _ 0 (by rfl)⟩⟩

theorem normalize_protect_err_of_mapget (o data : List (String × JVal))
    (now : Int) (err : PyErr)
    (hd : asObj (jGetD o "data" (.obj o)) = .ok data)
    (hb : protectMapGet (pyOr (pyOr (jGet o "type") (jGet o "event"))
      (.str "unknown")) = .error err) :
    normalize_protect o now = .error err := by
  unfold normalize_protect
  simp only [hd, hb, Except.bind, bind]

/-- **C8 amended** — Unmapped vendor type strings produce a stable slug,
but only the access normalizer replaces separators: an unmapped access type
becomes the vendor string with dots replaced by underscores, while an
unmapped protect type (with no smart-detect refinement) passes through
verbatim. -/
theorem unmapped_type_slug :
    (∀ (o : List (String × JVal)) (now : Int) (e : NormEvent) (s : String),
        normalize_access o now = .ok e → e.raw_event_type = .str s →
        ACCESS_ACTION_MAP.lookup s = none →
        e.action = .str (strReplace s "." "_"))
    ∧ (∀ (o data : List (String × JVal)) (now : Int) (e : NormEvent)
        (s : String),
        asObj (jGetD o "data" (.obj o)) = .ok data →
        pyTruthy (jGetD data "smartDetectTypes" (.arr [])) = false →
        normalize_protect o now = .ok e → e.raw_event_type = .str s →
        PROTECT_ACTION_MAP.lookup s = none → e.action = .str s) := by
  constructor
  · intro o now e s h hraw hmap
    obtain ⟨data, actor, door, s', het, hd, ha, hdo⟩ :=
      normalize_access_ok_inv o now e h
    have hsh := normalize_access_shape o data actor door s' now het hd ha hdo
    rw [h] at hsh
    have he : e = accessRecord o data actor door s' now := by
      exact (Except.ok.injEq _ _).mp hsh
    subst he
    have hs : s' = s := by
      have := hraw
      simp [accessRecord] at this
      exact this
    subst hs
    simp [accessRecord, hmap]
  · intro o data now e s hd hsm h hraw hmap
    cases hety : pyOr (pyOr (jGet o "type") (jGet o "event")) (.str "unknown") with
    | arr xs =>
      rw [normalize_protect_err_of_mapget o data now .typeError hd
        (by rw [hety]; rfl)] at h
      exact absurd h (by simp)
    | obj kvs =>
      rw [normalize_protect_err_of_mapget o data now .typeError hd
        (by rw [hety]; rfl)] at h
      exact absurd h (by simp)
    | null =>
      have hsh := normalize_protect_shape_nosmart o data .null now hd
        (by rw [hety]; rfl) hsm
      rw [h] at hsh
      have he : e = protectCore o data .null now := (Except.ok.injEq _ _).mp hsh
      subst he
      simp [protectCore, hety] at hraw
    | bool b =>
      have hsh := normalize_protect_shape_nosmart o data (.bool b) now hd
        (by rw [hety]; rfl) hsm
      rw [h] at hsh
      have he : e = protectCore o data (.bool b) now := (Except.ok.injEq _ _).mp hsh
      subst he
      simp [protectCore, hety] at hraw
    | num n =>
      have hsh := normalize_protect_shape_nosmart o data (.num n) now hd
        (by rw [hety]; rfl) hsm
      rw [h] at hsh
      have he : e = protectCore o data (.num n) now := (Except.ok.injEq _ _).mp hsh
      subst he
      simp [protectCore, hety] at hraw
    | str s' =>
      have hsh := normalize_protect_shape_nosmart o data
        (.str ((PROTECT_ACTION_MAP.lookup s').getD s')) now hd
        (by rw [hety]; rfl) hsm
      rw [h] at hsh
      have he : e = protectCore o data
          (.str ((PROTECT_ACTION_MAP.lookup s').getD s')) now :=
        (Except.ok.injEq _ _).mp hsh
      subst he
      have hs : s' = s := by
        have := hraw
        simp [protectCore, hety] at this
        exact this
      subst hs
      simp [protectCore, hmap]

/-- Witness for C8-amended at concrete unmapped vendor types. -/
theorem unmapped_type_slug_witness :
    (accessRecord [("event", JVal.str "x.y")] [("event", JVal.str "x.y")]
        [] [] "x.y" 0).action = .str (strReplace "x.y" "." "_") ∧
    (protectCore [("type", JVal.str "p.q")] [("type", JVal.str "p.q")]
        (.str "p.q") 0).action = .str "p.q" :=
  ⟨unmapped_type_slug.1 [("event", JVal.str "x.y")] 0 _ "x.y"
      (by rfl) (by rfl) (by rfl),
   unmapped_type_slug.2 [("type", JVal.str "p.q")] [("type", JVal.str "p.q")]
      0 _ "p.q" (by rfl) (by rfl) (by rfl) (by rfl) (by rfl)⟩

theorem should_notify_eq_spec (e : NotifEvent) (c : ActivityWebhookConfig) :
    should_notify e c = shouldNotifySpec e c := by
  unfold should_notify shouldNotifySpec allSwitches
  cases he : c.enabled <;> cases hu : c.webhook_url == "" <;>
    simp [swMatches, swGet, Bool.or_assoc, Bool.and_assoc]

theorem flipSw_enabled (s : SwitchId) (c : ActivityWebhookConfig) :
    (flipSw s c).enabled = c.enabled := by
  cases s <;> rfl

theorem flipSw_url (s : SwitchId) (c : ActivityWebhookConfig) :
    (flipSw s c).webhook_url = c.webhook_url := by
  cases s <;> rfl

theorem swGet_flip_self (s : SwitchId) (c : ActivityWebhookConfig) :
    swGet (flipSw s c) s = !(swGet c s) := by
  cases s <;> rfl

theorem swGet_flip_other (s t : SwitchId) (c : ActivityWebhookConfig)
    (h : s ≠ t) : swGet (flipSw s c) t = swGet c t := by
  cases s <;> cases t <;> simp_all [flipSw, swGet]

theorem switch_beq (s t : SwitchId) : (s == t) = decide (s = t) := rfl

theorem any_matches_unique (e : NotifEvent) (c : ActivityWebhookConfig)
    (s₀ : SwitchId) (h : ∀ s, swMatches s e = (s == s₀)) :
    (allSwitches.any fun s => swMatches s e && swGet c s) = swGet c s₀ := by
  unfold allSwitches
  simp only [List.any_cons, List.any_nil, h]
  cases s₀ <;> simp [swGet, switch_beq]

/-- **C5** — The rule matcher fires iff the policy is enabled, a
destination URL is configured, and some switch registered for the event's
(source, action-class) is on: `should_notify` coincides with the
spec-modelled `shouldNotifySpec`; and for sub-tagged actions the person
switch matches by containment on the sub-tag (`smart_detect:person`,
`smart_detect:person,animal`), not by equality with the whole slug. -/
theorem matcher_fires_iff :
    (∀ (e : NotifEvent) (c : ActivityWebhookConfig),
        should_notify e c = shouldNotifySpec e c)
    ∧ swMatches .personDetected ⟨"protect", "smart_detect:person"⟩ = true
    ∧ swMatches .personDetected ⟨"protect", "smart_detect:person,animal"⟩ = true
    ∧ "smart_detect:person,animal" ≠ "person" :=
  ⟨should_notify_eq_spec, by decide, by decide, by decide⟩

/-- **C6** — For a fixed event whose (source, action-class) is matched by
exactly one registered switch, flipping that switch changes the fire/no-fire
outcome whenever the policy is enabled with a destination configured, and
flipping any other switch never changes the outcome for that event. -/
theorem unique_switch_controls_matcher :
    ∀ (e : NotifEvent) (s₀ : SwitchId),
      (∀ s, swMatches s e = (s == s₀)) →
      (∀ c : ActivityWebhookConfig, c.enabled = true →
          (c.webhook_url == "") = false →
          should_notify e (flipSw s₀ c) ≠ should_notify e c)
      ∧ (∀ (c : ActivityWebhookConfig) (s : SwitchId), s ≠ s₀ →
          should_notify e (flipSw s c) = should_notify e c) := by
  intro e s₀ h
  constructor
  · intro c hen hurl
    rw [should_notify_eq_spec, should_notify_eq_spec]
    unfold shouldNotifySpec
    rw [any_matches_unique e _ s₀ h, any_matches_unique e c s₀ h,
        flipSw_enabled, flipSw_url, swGet_flip_self, hen, hurl]
    cases swGet c s₀ <;> simp
  · intro c s hns
    rw [should_notify_eq_spec, should_notify_eq_spec]
    unfold shouldNotifySpec
    rw [any_matches_unique e _ s₀ h, any_matches_unique e c s₀ h,
        flipSw_enabled, flipSw_url, swGet_flip_other s s₀ c hns]

/-- Concrete enabled policy row for the C6 witness. -/
def c6Config : ActivityWebhookConfig :=
  { enabled := true, webhook_url := "https://example.test/hook",
    webhook_type := "generic", event_access_granted := true,
    event_access_denied := false, event_door_held_open := false,
    event_person_detected := true, event_vehicle_detected := false,
    event_doorbell_ring := true, event_motion := false }

/-- Witness for C6 at a concrete event, switch and policy row. -/
theorem unique_switch_controls_matcher_witness :
    should_notify ⟨"access", "access_granted"⟩
        (flipSw .accessGranted c6Config) ≠
      should_notify ⟨"access", "access_granted"⟩ c6Config :=
  (unique_switch_controls_matcher ⟨"access", "access_granted"⟩ .accessGranted
    (by intro s; cases s <;> rfl)).1 c6Config rfl rfl

/-- **C9** — The deliverer returns a boolean: it makes at most one outbound
call (no retry — only the first network outcome is ever consulted), returns
`true` exactly when the rule matcher fires and the single call yields an
HTTP status below 300, and maps every non-success status, timeout or
transport error (the caught-exception outcome) to `false` rather than
propagating it. -/
theorem delivery_outcome_is_boolean :
    ∀ (e : NotifEvent) (c : ActivityWebhookConfig) (http : Nat → HttpResult),
      ((send_notification e c http).2 ≤ 1)
      ∧ ((send_notification e c http).1 = true ↔
          should_notify e c = true ∧ ∃ s, http 0 = .ok s ∧ s < 300)
      ∧ (∀ http2 : Nat → HttpResult, http2 0 = http 0 →
          send_notification e c http2 = send_notification e c http) := by
  intro e c http
  refine ⟨?_, ?_, ?_⟩
  · unfold send_notification
    cases hn : should_notify e c <;> simp
    cases http 0 <;> simp
  · unfold send_notification
    cases hn : should_notify e c <;> simp
    cases hh : http 0 <;> simp [hh]
  · intro http2 h2
    unfold send_notification
    rw [h2]

/-- Concrete enabled policy row for the C9 witness. -/
def c9Config : ActivityWebhookConfig :=
  { enabled := true, webhook_url := "https://example.test/sink",
    webhook_type := "slack", event_access_granted := true,
    event_access_denied := true, event_door_held_open := false,
    event_person_detected := true, event_vehicle_detected := false,
    event_doorbell_ring := true, event_motion := false }

/-- Witness for C9: two oracles agreeing on the first call give identical
delivery outcomes. -/
theorem delivery_outcome_is_boolean_witness :
    send_notification ⟨"protect", "doorbell_ring"⟩ c9Config
        (fun _ => .ok 503) =
      send_notification ⟨"protect", "doorbell_ring"⟩ c9Config
        (fun n => if n = 0 then .ok 503 else .exn) :=
  (delivery_outcome_is_boolean ⟨"protect", "doorbell_ring"⟩ c9Config
    (fun n => if n = 0 then .ok 503 else .exn)).2.2 (fun _ => .ok 503) rfl

theorem dedup_id_drops_falsy (p : String) (parts : List JVal) :
    dedup_id p parts = dedup_id p (parts.filter pyTruthy) := by
  unfold dedup_id
  rw [List.filter_filter]
  simp

theorem dedup_id_len (p : String) (parts : List JVal) :
    (dedup_id p parts).length = 24 := by
  simp [dedup_id, sha1Hex, natToHex, String.length]

theorem dedup_id_hex (p : String) (parts : List JVal) :
    (dedup_id p parts).toList.all isHexLower = true := by
  unfold dedup_id sha1Hex
  rw [List.all_eq_true]
  intro c hc
  simp only [String.toList] at hc
  have hc2 := List.mem_of_mem_take hc
  obtain ⟨i, _, rfl⟩ : ∃ i, i < 40 ∧ hexChar
      (sha1Nat (utf8Bytes (p ++ "-" ++
        "-".intercalate (List.map pyStr (List.filter pyTruthy parts)))) >>>
          (4 * (39 - i)) % 16) = c := by
    simpa [natToHex] using hc2
  have hdec : ∀ m : Nat, m < 16 → isHexLower (hexChar m) = true := by decide
  exact hdec _ (Nat.mod_lt _ (by norm_num))

/-- The record `c10P1` normalizes to (actor id `None`). -/
def c10E1 : NormEvent :=
  accessRecord c10P1 [("actor", .obj [("id", JVal.null)])]
    [("id", JVal.null)] [] "access.logs.add" 0

/-- The record `c10P2` normalizes to (actor id `""`). -/
def c10E2 : NormEvent :=
  accessRecord c10P2 [("actor", .obj [("id", JVal.str "")]),
      ("user_id", JVal.str "")]
    [("id", JVal.str "")] [] "access.logs.add" 0

/-- **C10** — `_dedup_id` drops every falsy part before joining and
hashing, always yields a 24-character lowercase-hex string, and collides on
distinct payloads whose falsy components differ: the two distinct payloads
`c10P1` (actor id `None`) and `c10P2` (actor id `""`) normalize to records
with the same synthesized `event_id`, so storing both keeps exactly one
record. -/
theorem dedup_id_shape_and_collisions :
    (∀ (p : String) (parts : List JVal),
        dedup_id p parts = dedup_id p (parts.filter pyTruthy))
    ∧ (∀ (p : String) (parts : List JVal), (dedup_id p parts).length = 24)
    ∧ (∀ (p : String) (parts : List JVal),
        (dedup_id p parts).toList.all isHexLower = true)
    ∧ (normalize_access c10P1 0 = .ok c10E1 ∧
       normalize_access c10P2 0 = .ok c10E2 ∧
       c10P1 ≠ c10P2 ∧
       c10E1.event_id = c10E2.event_id ∧
       (store_event c10E2 (store_event c10E1 [])).length = 1) := by
  refine ⟨dedup_id_drops_falsy, dedup_id_len, dedup_id_hex, ?_, ?_, ?_, ?_, ?_⟩
  · exact normalize_access_shape c10P1 _ _ _ "access.logs.add" 0
      (by rfl) (by rfl) (by rfl) (by rfl)
  · exact normalize_access_shape c10P2 _ _ _ "access.logs.add" 0
      (by rfl) (by rfl) (by rfl) (by rfl)
  · intro hEq
    simp [c10P1, c10P2] at hEq
  · show c10E1.event_id = c10E2.event_id
    simp only [c10E1, c10E2, accessRecord]
    rw [dedup_id_drops_falsy, dedup_id_drops_falsy]
    rfl
  · have hid : c10E1.event_id = c10E2.event_id := by
      simp only [c10E1, c10E2, accessRecord]
      rw [dedup_id_drops_falsy, dedup_id_drops_falsy]
      rfl
    have h1 : store_event c10E1 [] = [c10E1] := rfl
    have h2 : store_event c10E2 [c10E1] = [c10E1] :=
      store_event_of_dup _ _ (by simp [hid])
    rw [h1, h2]
    rfl

end Crosstalk






